import Mathlib

/-!
Verification of the js-cf-routing request-routing layer (Cloudflare Worker /
Durable Object routers).

The development shallowly embeds the library's core:
  * `buildCorsHeaders` and the default `corsHeaders` record (src/cors.ts),
  * the response / error serializers `buildResponse` and `buildErrorResponse`
    (src/router.ts),
  * the middleware chain executor `executeChain` with its shared-cursor
    `next()` protocol, and the middleware matcher `getMatchingMiddlewares`,
  * the OPTIONS preflight route installed by `defineRouteHandler`, and the
    `build()` finalization step of both router generations.

JavaScript records (plain objects used as header maps) are modelled as
association lists with assignment semantics (`recordSet`), and JS truthiness
of strings / optional values is modelled explicitly where the source relies
on it.
-/

namespace CfRouting

/-- A JS plain object used as a string-to-string header record: an
association list whose keys are unique, written by assignment semantics. -/
abbrev Rec := List (String × String)

/-- Assignment `m[k] = v` on a JS record: overwrite the existing entry
if the key is present, otherwise append a new entry. -/
def recordSet (m : Rec) (k v : String) : Rec :=
  if m.any (fun p => p.1 == k) then
    m.map (fun p => if p.1 == k then (k, v) else p)
  else
    m ++ [(k, v)]

/-- Lookup `m[k]` on a JS record, `none` when the key is absent
(JS `undefined`). -/
def recordGet (m : Rec) (k : String) : Option String :=
  (m.find? (fun p => p.1 == k)).map (fun p => p.2)

/-- JS truthiness of a record lookup: the key is present with a non-empty
string value (`''` is falsy). -/
def recordTruthy (m : Rec) (k : String) : Bool :=
  match recordGet m k with
  | some v => v != ""
  | none => false

/-- The `origins` field of a `CorsConfig`: in TypeScript
`origins?: string | string[]`, so a present value is either one string
(`'*'` or a single origin) or an explicit array of origins. -/
inductive Origins where
  | str (s : String)
  | list (l : List String)
deriving DecidableEq, Repr

/-- `CorsConfig` (src/cors.ts): optional origins, optional overrides for
methods / headers / max-age, and a credentials flag (absent behaves exactly
like `false` everywhere in the source, so it is modelled as `Bool`). -/
structure CorsConfig where
  origins : Option Origins := none
  methods : Option String := none
  headers : Option String := none
  maxAge : Option String := none
  credentials : Bool := false
deriving DecidableEq, Repr

/-- The constant default CORS record `corsHeaders` from src/cors.ts:
Methods / Headers / Max-Age only, no Allow-Origin, no credentials. -/
def corsHeaders : Rec :=
  [("Access-Control-Allow-Methods", "GET, POST, PUT, DELETE, OPTIONS"),
   ("Access-Control-Allow-Headers", "Content-Type, X-API-Key, X-App-Id, Authorization"),
   ("Access-Control-Max-Age", "86400")]

/-- JS truthiness of `config.origins`: `undefined` and the empty string are
falsy; any other string and every array (even an empty one) are truthy. -/
def originsTruthy : Option Origins → Bool
  | none => false
  | some (.str s) => s != ""
  | some (.list _) => true

/-- `buildCorsHeaders(config, requestOrigin)` from src/cors.ts.

The base record always carries Methods / Headers / Max-Age (overrides via
`??`, so only `undefined` falls back to a default).  Then, when
`config.origins` is truthy: `'*'` sets a wildcard Allow-Origin; an array
echoes the request origin (and sets `Vary: Origin`) only when the request
origin is truthy and a member of the list; any other string is written
verbatim as a single static origin.  Finally `Access-Control-Allow-Credentials`
is added when `config.credentials` is truthy and an Allow-Origin entry is
present (a truthy lookup). -/
def buildCorsHeaders (config : CorsConfig) (requestOrigin : Option String := none) : Rec :=
  let headers : Rec :=
    [("Access-Control-Allow-Methods", config.methods.getD "GET, POST, PUT, DELETE, OPTIONS"),
     ("Access-Control-Allow-Headers",
       config.headers.getD "Content-Type, X-API-Key, X-App-Id, Authorization"),
     ("Access-Control-Max-Age", config.maxAge.getD "86400")]
  let headers :=
    if originsTruthy config.origins then
      match config.origins with
      | some (.str s) =>
          if s == "*" then
            recordSet headers "Access-Control-Allow-Origin" "*"
          else
            -- single specific origin, written verbatim, no request matching
            recordSet headers "Access-Control-Allow-Origin" s
      | some (.list l) =>
          match requestOrigin with
          | some ro =>
              -- `requestOrigin &&` guard: the empty string is falsy
              if ro != "" && l.contains ro then
                recordSet (recordSet headers "Access-Control-Allow-Origin" ro) "Vary" "Origin"
              else
                headers
          | none => headers
      | none => headers
    else headers
  if config.credentials && recordTruthy headers "Access-Control-Allow-Origin" then
    recordSet headers "Access-Control-Allow-Credentials" "true"
  else
    headers

/-- C1 counterexample: for the config `{origins: '*', credentials: true}`
(and no request origin) `buildCorsHeaders` returns a record carrying both
`Access-Control-Allow-Origin: *` and `Access-Control-Allow-Credentials: true`,
so the claimed hard invariant fails on exactly the input the claim singles
out: the credentials guard only checks that *some* Allow-Origin was set, not
that it is distinct from the wildcard. -/
theorem buildCorsHeaders_wildcard_credentials_cex :
    recordGet (buildCorsHeaders { origins := some (.str "*"), credentials := true } none)
        "Access-Control-Allow-Origin" = some "*" ∧
      recordGet (buildCorsHeaders { origins := some (.str "*"), credentials := true } none)
        "Access-Control-Allow-Credentials" = some "true" := by decide

/-- C1 (amended): `buildCorsHeaders` emits the wildcard Allow-Origin together
with `Allow-Credentials: true` only when the configuration itself demands the
documented-invalid combination: `credentials` is set and the wildcard comes
from the config (`origins` is the string `'*'`, or the request origin is the
literal `'*'` and appears in the configured origins list). For every other
config / request-origin pair the two headers never co-occur. -/
theorem buildCorsHeaders_wildcard_credentials (config : CorsConfig) (ro : Option String)
    (h : recordGet (buildCorsHeaders config ro) "Access-Control-Allow-Origin" = some "*" ∧
      recordGet (buildCorsHeaders config ro) "Access-Control-Allow-Credentials" = some "true") :
    config.credentials = true ∧
      (config.origins = some (.str "*") ∨
        (ro = some "*" ∧ ∃ l, config.origins = some (.list l) ∧ "*" ∈ l)) := by
  obtain ⟨origins, me, he, ma, creds⟩ := config
  obtain ⟨h1, h2⟩ := h
  cases origins with
  | none =>
      simp [buildCorsHeaders, originsTruthy, recordTruthy, recordGet, recordSet,
        List.find?] at h1
  | some o =>
    cases o with
    | str s =>
        by_cases hs : s = "*"
        · subst hs
          cases creds with
          | false =>
              simp [buildCorsHeaders, originsTruthy, recordTruthy, recordGet, recordSet,
                List.find?] at h2
          | true => simp
        · by_cases he0 : s = ""
          · subst he0
            simp [buildCorsHeaders, originsTruthy, recordTruthy, recordGet, recordSet,
              List.find?] at h1
          · exfalso
            cases creds <;>
              simp [buildCorsHeaders, originsTruthy, recordTruthy, recordGet, recordSet,
                List.find?, he0, hs] at h1
    | list l =>
        cases ro with
        | none =>
            simp [buildCorsHeaders, originsTruthy, recordTruthy, recordGet, recordSet,
              List.find?] at h1
        | some r =>
            by_cases hr : (r != "" && l.contains r) = true
            · rw [Bool.and_eq_true] at hr
              obtain ⟨hr1, hr2⟩ := hr
              have hrne : r ≠ "" := by simpa using hr1
              have hrmem : r ∈ l := by simpa using hr2
              cases creds with
              | false =>
                  exfalso
                  simp [buildCorsHeaders, originsTruthy, recordTruthy, recordGet, recordSet,
                    List.find?, hrne, hrmem] at h2
              | true =>
                  have hrs : r = "*" := by
                    simp [buildCorsHeaders, originsTruthy, recordTruthy, recordGet, recordSet,
                      List.find?, hrne, hrmem] at h1
                    exact h1
                  exact ⟨rfl, Or.inr ⟨by rw [hrs], l, rfl, hrs ▸ hrmem⟩⟩
            · simp only [Bool.not_eq_true] at hr
              have hnot : ¬(¬r = "" ∧ r ∈ l) := by simpa using hr
              cases creds <;>
                simp [buildCorsHeaders, originsTruthy, recordTruthy, recordGet, recordSet,
                  List.find?, hnot] at h1

/-- C1 witness: the amended statement instantiated at the config
`{origins: '*', credentials: true}` with no request origin. -/
theorem buildCorsHeaders_wildcard_credentials_witness :
    ({ origins := some (Origins.str "*"), credentials := true } : CorsConfig).credentials = true ∧
      (({ origins := some (Origins.str "*"), credentials := true } : CorsConfig).origins =
          some (Origins.str "*") ∨
        ((none : Option String)= some "*" ∧
          ∃ l, ({ origins := some (Origins.str "*"), credentials := true } : CorsConfig).origins =
              some (Origins.list l) ∧ "*" ∈ l)) :=
  buildCorsHeaders_wildcard_credentials
    { origins := some (Origins.str "*"), credentials := true } none (by decide)

/-- C7 counterexample: with the explicit origin list `[""]` and a request
whose `Origin` header value is the empty string, the request origin *is* a
member of the list, yet `buildCorsHeaders` emits no
`Access-Control-Allow-Origin` header (the `requestOrigin &&` guard treats
the empty string as falsy), refuting the claim as stated. -/
theorem buildCorsHeaders_list_empty_origin_cex :
    ("" ∈ ([""] : List String)) ∧
      recordGet (buildCorsHeaders { origins := some (Origins.list [""]) } (some ""))
        "Access-Control-Allow-Origin" = none := by decide

/-- C7 (amended): for a config whose `origins` is an explicit list, a
*non-empty* request origin that is a member of the list is echoed verbatim
as `Access-Control-Allow-Origin` together with `Vary: Origin`; when the
request origin is absent, empty, or not in the list, no
`Access-Control-Allow-Origin` header is present in the result. -/
theorem buildCorsHeaders_list_origins (l : List String) (me he ma : Option String)
    (creds : Bool) (ro : Option String) :
    (∀ o, ro = some o → o ≠ "" → o ∈ l →
        recordGet (buildCorsHeaders ⟨some (.list l), me, he, ma, creds⟩ ro)
            "Access-Control-Allow-Origin" = some o ∧
          recordGet (buildCorsHeaders ⟨some (.list l), me, he, ma, creds⟩ ro)
            "Vary" = some "Origin") ∧
      ((ro = none ∨ ∃ o, ro = some o ∧ (o = "" ∨ o ∉ l)) →
        recordGet (buildCorsHeaders ⟨some (.list l), me, he, ma, creds⟩ ro)
          "Access-Control-Allow-Origin" = none) := by
  constructor
  · rintro o rfl ho hm
    cases creds <;>
      simp [buildCorsHeaders, originsTruthy, recordTruthy, recordGet, recordSet,
        List.find?, ho, hm]
  · rintro (rfl | ⟨o, rfl, ho⟩)
    · cases creds <;>
        simp [buildCorsHeaders, originsTruthy, recordTruthy, recordGet, recordSet, List.find?]
    · have hnot : ¬(¬o = "" ∧ o ∈ l) := by
        rcases ho with rfl | hnm
        · simp
        · exact fun hc => hnm hc.2
      cases creds <;>
        simp [buildCorsHeaders, originsTruthy, recordTruthy, recordGet, recordSet,
          List.find?, hnot]

/-- C7 witness: the amended statement at the list `["https://app.example.com"]`,
once with a matching request origin and once with a non-member origin. -/
theorem buildCorsHeaders_list_origins_witness :
    recordGet (buildCorsHeaders ⟨some (.list ["https://app.example.com"]), none, none, none, false⟩
        (some "https://app.example.com")) "Access-Control-Allow-Origin" =
      some "https://app.example.com" ∧
      recordGet (buildCorsHeaders ⟨some (.list ["https://app.example.com"]), none, none, none, false⟩
        (some "https://evil.example.com")) "Access-Control-Allow-Origin" = none :=
  ⟨((buildCorsHeaders_list_origins ["https://app.example.com"] none none none false
        (some "https://app.example.com")).1 "https://app.example.com" rfl (by decide)
        (by decide)).1,
    (buildCorsHeaders_list_origins ["https://app.example.com"] none none none false
        (some "https://evil.example.com")).2
      (Or.inr ⟨"https://evil.example.com", rfl, Or.inr (by decide)⟩)⟩

/-- C9 counterexample: the empty string is a configured single origin other
than `'*'`, but `config.origins` is then falsy in JavaScript, so
`buildCorsHeaders` emits no `Access-Control-Allow-Origin` header at all
instead of echoing the configured string verbatim. -/
theorem buildCorsHeaders_single_origin_cex :
    ("" : String) ≠ "*" ∧
      recordGet (buildCorsHeaders { origins := some (Origins.str "") }
        (some "https://app.example.com")) "Access-Control-Allow-Origin" = none := by decide

/-- C9 (amended): for a config whose `origins` is a single *non-empty* string
other than `'*'`, `buildCorsHeaders` writes that string verbatim as
`Access-Control-Allow-Origin` for every request origin (absent, equal or
different — the request origin is never consulted) and never sets a
`Vary: Origin` header. -/
theorem buildCorsHeaders_single_origin (s : String) (hne : s ≠ "") (hstar : s ≠ "*")
    (me he ma : Option String) (creds : Bool) (ro : Option String) :
    recordGet (buildCorsHeaders ⟨some (.str s), me, he, ma, creds⟩ ro)
        "Access-Control-Allow-Origin" = some s ∧
      recordGet (buildCorsHeaders ⟨some (.str s), me, he, ma, creds⟩ ro) "Vary" = none := by
  cases creds <;>
    simp [buildCorsHeaders, originsTruthy, recordTruthy, recordGet, recordSet,
      List.find?, hne, hstar]

/-- C9 witness: the amended statement at the single origin
`"https://app.example.com"` with an unrelated request origin present. -/
theorem buildCorsHeaders_single_origin_witness :
    recordGet (buildCorsHeaders ⟨some (.str "https://app.example.com"), none, none, none, false⟩
        (some "https://other.example.com")) "Access-Control-Allow-Origin" =
      some "https://app.example.com" ∧
      recordGet (buildCorsHeaders ⟨some (.str "https://app.example.com"), none, none, none, false⟩
        (some "https://other.example.com")) "Vary" = none :=
  buildCorsHeaders_single_origin "https://app.example.com" (by decide) (by decide)
    none none none false (some "https://other.example.com")

/-! ## Responses, errors and the serializers of src/router.ts -/

/-- A JSON value; response bodies are modelled as the JSON document that
`JSON.stringify` would serialize. -/
inductive Jv where
  | null
  | str (s : String)
  | num (n : Int)
  | obj (fields : List (String × Jv))

/-- A Fetch-API `Response` as far as this layer inspects it: status,
status text, an optional JSON body (`none` models a null body) and a
header record. -/
structure RespV where
  status : Nat
  statusText : String := ""
  body : Option Jv := none
  headers : Rec := []

/-- Modelled from the spec: the recognized application error of the external
`@whi/http-errors` package (not part of this repository). Per the spec's
error classifier, it carries a numeric status, a public message, an optional
structured detail object whose fields are spread alongside `error` in the
JSON body, and optional extra response headers. The two-argument constructor
`new HttpError(status, message)` used throughout the source corresponds to
empty `details` and `headers`. -/
structure HttpError where
  status : Nat
  message : String
  details : List (String × Jv) := []
  headers : Rec := []

/-- Modelled from the spec: `HttpError.toResponse()` of `@whi/http-errors`
(not part of this repository): the status is used verbatim and the JSON body
is `{"error": <message>, ...<detail fields>}` with the error's extra headers
attached alongside the JSON content type. -/
def HttpError.toResponse (e : HttpError) : RespV :=
  { status := e.status,
    body := some (.obj (("error", .str e.message) :: e.details)),
    headers := ("Content-Type", "application/json") :: e.headers }

/-- A value thrown during dispatch: either a recognized `HttpError`
(`instanceof HttpError`) or any other JavaScript value, carried here with a
string payload that the error path never exposes. -/
inductive ErrVal where
  | http (e : HttpError)
  | js (msg : String)

/-- `ResponseContext` (src/response-context.ts): mutable pending-response
state; a fresh instance has status 200, statusText `OK` and empty headers. -/
structure ResponseContext where
  status : Nat := 200
  statusText : String := "OK"
  headers : Rec := []

/-- The incoming request as far as this layer inspects it: HTTP method,
URL pathname, and the value of the `Origin` header (`none` when absent). -/
structure Request' where
  method : String
  pathname : String
  origin : Option String := none

/-- The per-request `Context` of src/context.ts restricted to the fields the
embedded functions consult: the request and the mutable `ResponseContext`
(`env`, `params`, the shared data bag and the logger are never read by the
serializers or the chain executor modelled here). -/
structure Context where
  request : Request'
  response : ResponseContext := {}

/-- Write every entry of `extra` into the record `base` with `Headers.set`
semantics, in iteration order (later writes win). -/
def setAll (base : Rec) (extra : Rec) : Rec :=
  extra.foldl (fun h p => recordSet h p.1 p.2) base

/-- `buildResponse(result, ctx, corsConfig)` (src/router.ts): a handler
return value that is already a `Response` passes through unmodified;
otherwise the return value is serialized as the JSON body with status and
statusText taken from the `ResponseContext`, and headers built from
`Content-Type: application/json` plus the resolved CORS headers
(`buildCorsHeaders(corsConfig, requestOrigin)` when a config is present,
else the `corsHeaders` defaults), overridden by the context's custom
headers. -/
def buildResponse (result : Sum RespV Jv) (ctx : Context) (corsConfig : Option CorsConfig) :
    RespV :=
  match result with
  | .inl r => r
  | .inr v =>
      let requestOrigin := ctx.request.origin
      let corsHeadersToApply :=
        match corsConfig with
        | some c => buildCorsHeaders c requestOrigin
        | none => corsHeaders
      let headers := setAll (setAll [("Content-Type", "application/json")] corsHeadersToApply)
        ctx.response.headers
      { status := ctx.response.status,
        statusText := ctx.response.statusText,
        body := some v,
        headers := headers }

/-- `buildErrorResponse(error, ctx, corsConfig)` (src/router.ts): a
recognized `HttpError` is rendered through its `toResponse()` with the CORS
headers merged underneath the error's own headers; any other thrown value
becomes a 500 response with body `{"error": "Internal Server Error"}` and
the JSON content type plus the CORS headers. -/
def buildErrorResponse (error : ErrVal) (ctx : Context) (corsConfig : Option CorsConfig) :
    RespV :=
  let requestOrigin := ctx.request.origin
  let corsHeadersToApply :=
    match corsConfig with
    | some c => buildCorsHeaders c requestOrigin
    | none => corsHeaders
  match error with
  | .http e =>
      let response := e.toResponse
      { status := response.status,
        statusText := response.statusText,
        body := response.body,
        headers := setAll corsHeadersToApply response.headers }
  | .js _ =>
      { status := 500,
        body := some (.obj [("error", .str "Internal Server Error")]),
        headers := setAll [("Content-Type", "application/json")] corsHeadersToApply }

/-- C10: the error response is built solely from the thrown error and the
effective CORS configuration — two contexts whose requests carry the same
`Origin` header produce identical error responses, however their
`ResponseContext`s (status, statusText, headers) were mutated before the
throw. -/
theorem buildErrorResponse_ignores_responseContext (e : ErrVal) (ctx1 ctx2 : Context)
    (cfg : Option CorsConfig) (h : ctx1.request.origin = ctx2.request.origin) :
    buildErrorResponse e ctx1 cfg = buildErrorResponse e ctx2 cfg := by
  cases e <;> simp [buildErrorResponse, h]

/-- C10 witness: a context whose handler set status 418, a custom statusText
and a custom header before throwing yields the same error response as a
fresh context. -/
theorem buildErrorResponse_ignores_responseContext_witness :
    buildErrorResponse (.js "boom")
        { request := { method := "GET", pathname := "/x" },
          response := { status := 418, statusText := "Teapot", headers := [("X-Custom", "v")] } }
        none =
      buildErrorResponse (.js "boom")
        { request := { method := "GET", pathname := "/x" }, response := {} } none :=
  buildErrorResponse_ignores_responseContext (.js "boom")
    { request := { method := "GET", pathname := "/x" },
      response := { status := 418, statusText := "Teapot", headers := [("X-Custom", "v")] } }
    { request := { method := "GET", pathname := "/x" }, response := {} } none rfl

/-! ## The middleware chain executor `executeChain` (src/router.ts)

A middleware body is deep-embedded as `MwProg`: it may log an observable
event, return a `Response`, throw, or call the shared `next()` continuation
and resume with the response `next()` produced. The executor threads the
shared mutable cursor `index` exactly as the source closure does: `next()`
reads the middleware at the cursor, increments the cursor *before* invoking
it, wraps each invocation in a `try` that converts a thrown value into
`buildErrorResponse(...)` (returned as `next()`'s value to the caller), and
throws a chain-exhaustion `Error` when the cursor is past the end. The
interpreter carries a fuel parameter only to make the recursion structural;
a run that does not report `fuelOut` is the (terminating) behavior of the
source. -/

/-- A deep-embedded middleware body: return a response, throw, log an
observable event, or call `next()` and continue with its result. -/
inductive MwProg where
  | ret (r : RespV)
  | throwe (e : ErrVal)
  | emit (ev : String) (p : MwProg)
  | next (k : RespV → MwProg)

/-- Result of running a middleware body: it returned a response, the throw
escaped it, or the fuel ran out. -/
inductive MwOutcome where
  | ret (r : RespV)
  | thrown (e : ErrVal)
  | fuelOut

mutual

/-- Run one middleware body with the chain's shared cursor threaded through;
returns the outcome, the cursor after the run, and the events logged. -/
def runProg (ctx : Context) (cfg : Option CorsConfig) (mws : List MwProg) :
    Nat → MwProg → Nat → MwOutcome × Nat × List String
  | 0, _, idx => (.fuelOut, idx, [])
  | _ + 1, .ret r, idx => (.ret r, idx, [])
  | _ + 1, .throwe e, idx => (.thrown e, idx, [])
  | fuel + 1, .emit ev p, idx =>
      let res := runProg ctx cfg mws fuel p idx
      (res.1, res.2.1, ev :: res.2.2)
  | fuel + 1, .next k, idx =>
      match runNext ctx cfg mws fuel idx with
      | (.ret r, i, t) =>
          -- `next()` returned a response; the middleware resumes after the await
          let res := runProg ctx cfg mws fuel (k r) i
          (res.1, res.2.1, t ++ res.2.2)
      | (.thrown e, i, t) =>
          -- `await next()` threw (chain exhaustion); the body cannot catch it
          (.thrown e, i, t)
      | (.fuelOut, i, t) => (.fuelOut, i, t)

/-- The shared `next()` closure of `executeChain`: past the end of the list
it throws the chain-exhaustion error; otherwise it advances the cursor and
invokes the middleware there inside a `try` whose `catch` returns
`buildErrorResponse(error, ctx, corsConfig)` as `next()`'s value. -/
def runNext (ctx : Context) (cfg : Option CorsConfig) (mws : List MwProg) :
    Nat → Nat → MwOutcome × Nat × List String
  | 0, idx => (.fuelOut, idx, [])
  | fuel + 1, idx =>
      if h : idx < mws.length then
        match runProg ctx cfg mws fuel (mws.get ⟨idx, h⟩) (idx + 1) with
        | (.ret r, i, t) => (.ret r, i, t)
        | (.thrown e, i, t) => (.ret (buildErrorResponse e ctx cfg), i, t)
        | (.fuelOut, i, t) => (.fuelOut, i, t)
      else
        (.thrown (.js "Middleware chain exhausted without returning a response"), idx, [])

end

/-- `executeChain(ctx, middlewares, corsConfig)`: start `next()` at cursor 0
inside a top-level `try` that converts an escaping throw into an error
response. `none` signals fuel exhaustion of the interpreter (never the
source's behavior on the runs stated below). -/
def executeChain (ctx : Context) (middlewares : List MwProg) (corsConfig : Option CorsConfig)
    (fuel : Nat) : Option RespV × List String :=
  match runNext ctx corsConfig middlewares fuel 0 with
  | (.ret r, _, t) => (some r, t)
  | (.thrown e, _, t) => (some (buildErrorResponse e ctx corsConfig), t)
  | (.fuelOut, _, t) => (none, t)

/-- A well-behaved wrapping middleware: log a pre event, call `next()`, log
a post event, return the downstream response unchanged. -/
def wrapMw (pre post : String) : MwProg :=
  .emit pre (.next fun resp => .emit post (.ret resp))

/-- The terminal handler-invoking step: log the handler event and return the
serialized handler response. -/
def handlerMw (ev : String) (r : RespV) : MwProg :=
  .emit ev (.ret r)

/-- A middleware or handler step that throws. -/
def throwMw (e : ErrVal) : MwProg :=
  .throwe e

/-- A buggy middleware that calls `next()` a second time after the terminal
handler has already been consumed. -/
def doubleNextMw : MwProg :=
  .next fun _ => .next fun r2 => .ret r2

/-- C2 counterexample: middleware M1 wraps `next()` with post-processing and
the terminal handler throws. The thrown value is converted to an error
response, but the chain does *not* terminate immediately: the event
`"M1-post"` appears in the execution trace after the throw, because the
`catch` sits at the point of invocation and returns the error response as
`next()`'s value, so M1's post-processing code resumes and runs. This
refutes the claim's "no further middleware code runs afterwards, including
the post-processing code of middleware that ran earlier". -/
theorem executeChain_throw_post_cex :
    executeChain { request := { method := "GET", pathname := "/x" } }
        [wrapMw "M1-pre" "M1-post", throwMw (.js "boom")] none 10 =
      (some (buildErrorResponse (.js "boom")
        { request := { method := "GET", pathname := "/x" } } none), ["M1-pre", "M1-post"]) ∧
      "M1-post" ∈ (executeChain { request := { method := "GET", pathname := "/x" } }
        [wrapMw "M1-pre" "M1-post", throwMw (.js "boom")] none 10).2 :=
  ⟨rfl, by decide⟩

/-- C2 (amended): when a middleware or the terminal handler throws, the
thrown value is caught at the point of invocation and converted to an error
response via `buildErrorResponse`; no middleware *after* the throwing step
and no handler ever runs (here: M2 and H leave no events), but the
post-processing code of middleware that ran *earlier* in the chain does run,
receiving the error response as the result of its `next()` call (here: M1's
post event follows its pre event, and the final response is the converted
error response it passed back unchanged). -/
theorem executeChain_throw_conversion (l1 l1' l2 l2' hl : String) (e : ErrVal) (r : RespV)
    (ctx : Context) (cfg : Option CorsConfig) :
    executeChain ctx [wrapMw l1 l1', throwMw e, wrapMw l2 l2', handlerMw hl r] cfg 10 =
      (some (buildErrorResponse e ctx cfg), [l1, l1']) := rfl

/-- C5: error taxonomy of a value thrown during dispatch. A recognized
`HttpError(403, 'Forbidden')` thrown by the terminal step yields a response
with status 403 and body `{"error": "Forbidden"}`; any other thrown value
yields status 500 with body `{"error": "Internal Server Error"}`, whatever
its message was. -/
theorem executeChain_error_taxonomy (ctx : Context) (cfg : Option CorsConfig) :
    (∃ resp, (executeChain ctx [throwMw (.http ⟨403, "Forbidden", [], []⟩)] cfg 10).1 =
        some resp ∧
      resp.status = 403 ∧ resp.body = some (.obj [("error", .str "Forbidden")])) ∧
    ∀ msg, ∃ resp, (executeChain ctx [throwMw (.js msg)] cfg 10).1 = some resp ∧
      resp.status = 500 ∧ resp.body = some (.obj [("error", .str "Internal Server Error")]) :=
  ⟨⟨buildErrorResponse (.http ⟨403, "Forbidden", [], []⟩) ctx cfg, rfl, rfl, rfl⟩,
    fun msg => ⟨buildErrorResponse (.js msg) ctx cfg, rfl, rfl, rfl⟩⟩

/-- C8: calling `next()` when the cursor is already past the end of the
middleware list raises the internal chain-exhaustion error (a thrown
`Error`, not a silently returned `undefined`); and a chain holding a buggy
middleware that calls `next()` again after the terminal handler was consumed
is answered with the 500 Internal Server Error response built from that
internal error. -/
theorem runNext_past_end_raises (ctx : Context) (cfg : Option CorsConfig) (mws : List MwProg)
    (idx fuel : Nat) (h : mws.length ≤ idx) (hf : 1 ≤ fuel) :
    runNext ctx cfg mws fuel idx =
      (.thrown (.js "Middleware chain exhausted without returning a response"), idx, []) ∧
    ∀ (hl : String) (r : RespV),
      executeChain ctx [doubleNextMw, handlerMw hl r] cfg 10 =
        (some (buildErrorResponse
          (.js "Middleware chain exhausted without returning a response") ctx cfg), [hl]) ∧
      (buildErrorResponse (.js "Middleware chain exhausted without returning a response")
        ctx cfg).status = 500 ∧
      (buildErrorResponse (.js "Middleware chain exhausted without returning a response")
        ctx cfg).body = some (.obj [("error", .str "Internal Server Error")]) := by
  constructor
  · obtain ⟨n, rfl⟩ : ∃ n, fuel = n + 1 := ⟨fuel - 1, by omega⟩
    simp [runNext, Nat.not_lt.mpr h]
  · exact fun hl r => ⟨rfl, rfl, rfl⟩

/-- C8 witness: the exhaustion raise on an empty chain at cursor 0 with fuel
1, and the 500 answer of the double-`next()` scenario. -/
theorem runNext_past_end_raises_witness :
    runNext { request := { method := "GET", pathname := "/x" } } none [] 1 0 =
      (.thrown (.js "Middleware chain exhausted without returning a response"), 0, []) ∧
      executeChain { request := { method := "GET", pathname := "/x" } }
        [doubleNextMw, handlerMw "H" { status := 200 }] none 10 =
        (some (buildErrorResponse
          (.js "Middleware chain exhausted without returning a response")
          { request := { method := "GET", pathname := "/x" } } none), ["H"]) := by
  have hmain := runNext_past_end_raises { request := { method := "GET", pathname := "/x" } }
    none [] 0 1 (by decide) (by decide)
  exact ⟨hmain.1, (hmain.2 "H" { status := 200 }).1⟩

/-! ## Middleware registration and matching (`getMatchingMiddlewares`)

The source converts a registered path pattern into a regular expression by
`pattern.replace(/\*/g, '.*').replace(/:[^\/]+/g, '[^\/]+')`, anchors it
with `^...$`, and tests it against the request pathname. The combined
effect is modelled at the level of the original pattern: `*` matches any
character sequence, `:name` (a `:` followed by at least one non-`/`
character) matches one or more non-`/` characters, `.` (a regex
metacharacter left unescaped by the source) matches any single character,
and every other character matches itself. -/

/-- One token of the converted pattern regex. -/
inductive PathTok where
  | lit (c : Char)
  | dot
  | star
  | param
deriving DecidableEq

/-- Tokenize a path pattern. The boolean state records whether the scanner
is inside a `:name` parameter (whose remaining name characters up to the
next `/` are consumed by the `[^/]+` replacement). A `:` not followed by a
non-`/` character is left as a literal, as the regex `:[^\/]+` would not
match it. -/
def parseAux : Bool → List Char → List PathTok
  | _, [] => []
  | true, c :: rest => if c = '/' then .lit '/' :: parseAux false rest else parseAux true rest
  | false, '*' :: rest => .star :: parseAux false rest
  | false, ':' :: rest =>
      match rest with
      | [] => [.lit ':']
      | c :: _ => if c = '/' then .lit ':' :: parseAux false rest else .param :: parseAux true rest
  | false, '.' :: rest => .dot :: parseAux false rest
  | false, c :: rest => .lit c :: parseAux false rest

/-- Tokenization of a full path pattern. -/
def parsePattern (l : List Char) : List PathTok := parseAux false l

/-- Anchored matching of a token list against a pathname, with a fuel bound
to keep the recursion structural. Every recursive call strictly decreases
`ts.length + s.length`, so the fuel supplied by `regexTest` is never
exhausted. -/
def matchToksF : Nat → List PathTok → List Char → Bool
  | 0, _, _ => false
  | _ + 1, [], [] => true
  | _ + 1, [], _ :: _ => false
  | _ + 1, .lit _ :: _, [] => false
  | fuel + 1, .lit c :: ts, x :: xs => c == x && matchToksF fuel ts xs
  | _ + 1, .dot :: _, [] => false
  | fuel + 1, .dot :: ts, _ :: xs => matchToksF fuel ts xs
  | fuel + 1, .star :: ts, [] => matchToksF fuel ts []
  | fuel + 1, .star :: ts, x :: xs =>
      matchToksF fuel ts (x :: xs) || matchToksF fuel (.star :: ts) xs
  | _ + 1, .param :: _, [] => false
  | fuel + 1, .param :: ts, x :: xs =>
      x != '/' && (matchToksF fuel ts xs || matchToksF fuel (.param :: ts) xs)

/-- The anchored `regex.test(pathname)` of the converted pattern. -/
def regexTest (ts : List PathTok) (s : List Char) : Bool :=
  matchToksF (ts.length + s.length + 1) ts s

/-- `new RegExp(`^pattern$`).test(url.pathname)` for a registered path
pattern. -/
def pathPatternTest (pattern pathname : String) : Bool :=
  regexTest (parsePattern pattern.toList) pathname.toList

/-- A registered middleware entry (src/router.ts `MiddlewareEntry`):
`path = null` means global, `method = null` means all methods; the stored
sequence order is registration order. -/
structure MiddlewareEntry where
  path : Option String
  method : Option String
  middleware : MwProg

/-- The filter predicate of `getMatchingMiddlewares`: a truthy `method`
field that differs from the request method rejects the entry; a `null`
path makes the entry global; otherwise the converted pattern regex is
tested against the request pathname. -/
def entryMatches (entry : MiddlewareEntry) (request : Request') : Bool :=
  let methodMismatch :=
    match entry.method with
    | some m => m != "" && m != request.method
    | none => false
  if methodMismatch then false
  else
    match entry.path with
    | none => true
    | some p => pathPatternTest p request.pathname

/-- `getMatchingMiddlewares(request, path)` (src/router.ts): filter the
registered entries by method and path against the current request,
preserving registration order, and keep their middleware functions. -/
def getMatchingMiddlewares (middlewares : List MiddlewareEntry) (request : Request') :
    List MwProg :=
  (middlewares.filter (fun entry => entryMatches entry request)).map (fun e => e.middleware)

/-- C4: registering middleware M1, then M2 (both matching the request), then
a route handler H, dispatch executes the chain
`getMatchingMiddlewares ++ [finalHandler]` in the order M1-pre, M2-pre, H,
M2-post, M1-post — registration order for pre-processing, LIFO unwind for
post-processing — and returns the handler's response. -/
theorem executeChain_middleware_order (e1 e2 : MiddlewareEntry) (request : Request')
    (l1 l1' l2 l2' hl : String) (r : RespV) (ctx : Context) (cfg : Option CorsConfig)
    (hm1 : e1.middleware = wrapMw l1 l1') (hm2 : e2.middleware = wrapMw l2 l2')
    (h1 : entryMatches e1 request = true) (h2 : entryMatches e2 request = true) :
    executeChain ctx (getMatchingMiddlewares [e1, e2] request ++ [handlerMw hl r]) cfg 10 =
      (some r, [l1, l2, hl, l2', l1']) := by
  have hchain : getMatchingMiddlewares [e1, e2] request = [wrapMw l1 l1', wrapMw l2 l2'] := by
    simp [getMatchingMiddlewares, h1, h2, hm1, hm2]
  rw [hchain]
  rfl

/-- C4 witness: a global middleware M1 and a path-specific middleware M2 on
`/api/*` both match `GET /api/users`, and the dispatched chain produces the
trace M1-pre, M2-pre, H, M2-post, M1-post. -/
theorem executeChain_middleware_order_witness :
    executeChain { request := { method := "GET", pathname := "/api/users" } }
        (getMatchingMiddlewares
          [⟨none, none, wrapMw "M1-pre" "M1-post"⟩,
            ⟨some "/api/*", none, wrapMw "M2-pre" "M2-post"⟩]
          { method := "GET", pathname := "/api/users" } ++ [handlerMw "H" { status := 200 }])
        none 10 =
      (some { status := 200 }, ["M1-pre", "M2-pre", "H", "M2-post", "M1-post"]) :=
  executeChain_middleware_order
    ⟨none, none, wrapMw "M1-pre" "M1-post"⟩ ⟨some "/api/*", none, wrapMw "M2-pre" "M2-post"⟩
    { method := "GET", pathname := "/api/users" } "M1-pre" "M1-post" "M2-pre" "M2-post" "H"
    { status := 200 } { request := { method := "GET", pathname := "/api/users" } } none
    rfl rfl (by decide) (by decide)

/-! ## OPTIONS preflight and method dispatch of `defineRouteHandler` -/

/-- The OPTIONS responder that `defineRouteHandler` registers for a path
(src/router.ts): resolve the effective CORS config as the handler's
`cors(ctx)` result when defined, else the router-level config, and answer
204 with no body and the resolved CORS headers. The router's middleware
list is in scope but never consulted, and no get/post/put/delete/patch
handler method is invoked. -/
def optionsRoute (corsFn : Request' → Option CorsConfig) (routerCors : Option CorsConfig)
    (_middlewares : List MiddlewareEntry) (request : Request') : RespV :=
  let requestOrigin := request.origin
  let handlerCorsConfig := corsFn request
  let effectiveCorsConfig :=
    match handlerCorsConfig with
    | some c => some c
    | none => routerCors
  let headersToUse :=
    match effectiveCorsConfig with
    | some c => buildCorsHeaders c requestOrigin
    | none => corsHeaders
  { status := 204, body := none, headers := headersToUse }

/-- The per-method dispatcher that `defineRouteHandler` registers
(src/router.ts `createMethodHandler`): create a fresh context, resolve the
effective CORS config by the same handler-over-router precedence, collect
the matching middlewares, append the terminal handler step that serializes
the handler's return value through `buildResponse`, and run the chain. -/
def methodRoute (corsFn : Request' → Option CorsConfig) (routerCors : Option CorsConfig)
    (request : Request') (middlewares : List MiddlewareEntry) (handlerResult : Sum RespV Jv)
    (fuel : Nat) : Option RespV × List String :=
  let ctx : Context := { request := request }
  let handlerCorsConfig := corsFn request
  let effectiveCorsConfig :=
    match handlerCorsConfig with
    | some c => some c
    | none => routerCors
  let matchingMiddlewares := getMatchingMiddlewares middlewares request
  let finalHandler : MwProg := .ret (buildResponse handlerResult ctx effectiveCorsConfig)
  executeChain ctx (matchingMiddlewares ++ [finalHandler]) effectiveCorsConfig fuel

/-- C3: for a registered path, the OPTIONS responder answers 204 with no
body, independent of the registered middleware list (no chain runs, no
handler method is invoked), and its headers are exactly the CORS record
that a GET/POST dispatch with the same request applies under
`Content-Type: application/json` — both computed by the same precedence:
the handler's `cors` result when defined, otherwise the router-level
config, otherwise the built-in `corsHeaders` defaults. -/
theorem optionsRoute_cors_precedence (corsFn : Request' → Option CorsConfig)
    (routerCors : Option CorsConfig) (request : Request')
    (mws mws' : List MiddlewareEntry) (v : Jv) :
    optionsRoute corsFn routerCors mws request = optionsRoute corsFn routerCors mws' request ∧
    (optionsRoute corsFn routerCors mws request).status = 204 ∧
    (optionsRoute corsFn routerCors mws request).body = none ∧
    methodRoute corsFn routerCors request [] (.inr v) 10 =
      (some { status := 200, statusText := "OK", body := some v,
              headers := setAll [("Content-Type", "application/json")]
                (optionsRoute corsFn routerCors mws request).headers }, []) ∧
    (∀ hc, corsFn request = some hc →
      (optionsRoute corsFn routerCors mws request).headers =
        buildCorsHeaders hc request.origin) ∧
    (corsFn request = none →
      (optionsRoute corsFn routerCors mws request).headers =
        match routerCors with
        | some c => buildCorsHeaders c request.origin
        | none => corsHeaders) := by
  refine ⟨rfl, rfl, rfl, ?_, ?_, ?_⟩
  · cases h : corsFn request <;>
      simp [optionsRoute, methodRoute, getMatchingMiddlewares, executeChain, runNext, runProg,
        buildResponse, setAll, h]
  · intro hc h
    simp [optionsRoute, h]
  · intro h
    simp [optionsRoute, h]

/-- C3 witness: a handler-level dynamic config wins over a router-level one
for both the OPTIONS 204 and the GET serialization. -/
theorem optionsRoute_cors_precedence_witness :
    optionsRoute (fun _ => some { origins := some (.str "https://h.example.com") })
        (some { origins := some (.str "*") }) []
        { method := "GET", pathname := "/x" } =
      optionsRoute (fun _ => some { origins := some (.str "https://h.example.com") })
        (some { origins := some (.str "*") }) [⟨none, none, doubleNextMw⟩]
        { method := "GET", pathname := "/x" } ∧
      (optionsRoute (fun _ => some { origins := some (.str "https://h.example.com") })
        (some { origins := some (.str "*") }) []
        { method := "GET", pathname := "/x" }).headers =
        buildCorsHeaders { origins := some (.str "https://h.example.com") } none := by
  have hmain := optionsRoute_cors_precedence
    (fun _ => some { origins := some (.str "https://h.example.com") })
    (some { origins := some (.str "*") }) { method := "GET", pathname := "/x" }
    [] [⟨none, none, doubleNextMw⟩] .null
  exact ⟨hmain.1, hmain.2.2.2.2.1 { origins := some (.str "https://h.example.com") } rfl⟩

/-! ## The `build()` finalization step (both router generations) -/

/-- A route registration in the underlying itty-router table, by kind. -/
inductive RouteKind where
  | explicitRoute (method path : String)
  | optionsCatchAll
  | notFoundCatchAll
deriving DecidableEq

/-- The observable registration state of a router: the ordered route table
of the underlying itty-router and the `isBuilt` flag. -/
structure RouterState where
  routes : List RouteKind
  isBuilt : Bool := false
deriving DecidableEq

/-- `WorkerRouter.build()` of the current middleware-chain router
(src/router.ts): when `isBuilt` is already set, return the router unchanged;
otherwise register the catch-all OPTIONS preflight responder and the
catch-all 404 handler, and mark the router built. -/
def WorkerRouter.build (s : RouterState) : RouterState :=
  if s.isBuilt then s
  else { routes := s.routes ++ [.optionsCatchAll, .notFoundCatchAll], isBuilt := true }

/-- The registration state of a freshly constructed legacy `WorkerRouter`
(the earlier router.ts generation): its constructor registers the catch-all
OPTIONS responder immediately, and the class has no `isBuilt` flag. -/
def WorkerRouterLegacy.init : RouterState :=
  { routes := [.optionsCatchAll], isBuilt := false }

/-- `WorkerRouter.build()` of the legacy router generation: always registers
the catch-all 404 handler — there is no guard, so a second call registers
it again. -/
def WorkerRouterLegacy.build (s : RouterState) : RouterState :=
  { s with routes := s.routes ++ [.notFoundCatchAll] }

/-- C6 counterexample: on the legacy `WorkerRouter` (src/router.ts lines
411–426, which has no `isBuilt` guard) calling `build()` twice does not
yield the same registration state as calling it once — the second call
appends a duplicate catch-all 404 route. -/
theorem workerRouterLegacy_build_not_idempotent_cex :
    WorkerRouterLegacy.build (WorkerRouterLegacy.build WorkerRouterLegacy.init) ≠
      WorkerRouterLegacy.build WorkerRouterLegacy.init := by decide

/-- C6 (amended): on the current middleware-chain `WorkerRouter` (guarded by
`isBuilt`) `build()` is idempotent from every registration state: the second
call returns the already-built router unchanged, registering no additional
routes and not double-registering the catch-all OPTIONS and 404 handlers.
The legacy `WorkerRouter` generation lacks the guard and its second call
appends a duplicate (unreachable, shadowed) 404 catch-all. -/
theorem workerRouter_build_idempotent (s : RouterState) :
    WorkerRouter.build (WorkerRouter.build s) = WorkerRouter.build s ∧
      (WorkerRouter.build (WorkerRouter.build s)).routes = (WorkerRouter.build s).routes := by
  constructor
  · by_cases h : s.isBuilt <;> simp [WorkerRouter.build, h]
  · by_cases h : s.isBuilt <;> simp [WorkerRouter.build, h]

end CfRouting
